import Mathlib

/-!
Verification of the Financial Analytics Engine of the RunwayAI repository
(`server/storage.ts` class `DatabaseStorage`, `server/mock-storage.ts` class
`MockStorage`): the `getFinancialSummary` and `getExpenseBreakdown`
aggregations.

Embedding conventions:
* Decimal amount strings are embedded as exact rationals (`ℚ`): the source
  applies `parseFloat` to decimal literals and the spec treats the values as
  exact decimals, so a transaction amount or account balance is carried as the
  rational it denotes.  `parseFloat(account.balance || "0")` on an absent
  balance yields `0`; the embedded field carries the parsed value directly.
* A JavaScript `Date` in server-local time is embedded as a calendar
  timestamp `DateTime` (year, 0-based month as in `Date.getMonth()`, 1-based
  day, hour, minute) compared lexicographically; for valid local timestamps
  this order agrees with the epoch-millisecond order used by `<=` on `Date`.
  `new Date(y, m, 1)` is the first day of month `m` at 00:00 and
  `new Date(y, m + 1, 0)` normalizes to the LAST day of month `m` at 00:00.
* The JavaScript accumulator object `Record<string, number>` built by
  `reduce` is embedded as an association list in first-insertion order,
  `Object.entries` as the list itself.
* Fallible paths: neither analytics routine has a throwing path on its own
  (they map and fold over already-fetched rows), so the embedding is total.
-/

namespace RunwayAI

/-- Transaction `type` column: the analytics code compares it against the
string literals "expense" and "income"; `transfer` is the third value
occurring in the repository. -/
inductive TxType where
  | income
  | expense
  | transfer
deriving DecidableEq, Repr

/-- The fields of an `accounts` row that `getFinancialSummary` reads:
`userId` (the query filters on it), `balance` (embedded as the parsed
rational), and `isActive`, kept to express that the aggregation never
consults it. -/
structure Account where
  userId : String
  balance : ℚ
  isActive : Bool
deriving DecidableEq, Repr

/-- A server-local calendar timestamp, as read off a JavaScript `Date`:
`year` = `getFullYear()`, `month` = `getMonth()` (0-based), `day` =
`getDate()` (1-based), plus hour and minute. -/
structure DateTime where
  year : Int
  month : Nat
  day : Nat
  hour : Nat
  minute : Nat
deriving DecidableEq, Repr

/-- Lexicographic order on calendar timestamps; agrees with `Date <= Date`
(epoch-millisecond comparison) for timestamps in one local timezone. -/
def DateTime.le (a b : DateTime) : Bool :=
  decide (a.year < b.year) ||
    (a.year == b.year &&
      (decide (a.month < b.month) ||
        (a.month == b.month &&
          (decide (a.day < b.day) ||
            (a.day == b.day &&
              (decide (a.hour < b.hour) ||
                (a.hour == b.hour && decide (a.minute ≤ b.minute))))))))

/-- The fields of a `transactions` row that the analytics read: `userId`,
`amount` (parsed rational), nullable `category`, `date`, `type`. -/
structure Transaction where
  userId : String
  amount : ℚ
  category : Option String
  date : DateTime
  type : TxType
deriving DecidableEq, Repr

/-- JavaScript `new Date(y, m).getDate()` month lengths (Gregorian). -/
def isLeapYear (y : Int) : Bool :=
  (y % 4 == 0 && y % 100 != 0) || y % 400 == 0

/-- Number of days of 0-based month `m` of year `y`, as JavaScript `Date`
normalization uses. -/
def daysInMonth (y : Int) (m : Nat) : Nat :=
  match m with
  | 0 => 31
  | 1 => if isLeapYear y then 29 else 28
  | 2 => 31
  | 3 => 30
  | 4 => 31
  | 5 => 30
  | 6 => 31
  | 7 => 31
  | 8 => 30
  | 9 => 31
  | 10 => 30
  | _ => 31

/-- `new Date(now.getFullYear(), now.getMonth(), 1)`: first day of the
current month at local midnight. -/
def startOfMonth (now : DateTime) : DateTime :=
  ⟨now.year, now.month, 1, 0, 0⟩

/-- `new Date(now.getFullYear(), now.getMonth() + 1, 0)`: day 0 of the next
month, which `Date` normalizes to the last day of the current month at local
midnight (hour 0, minute 0 — not 23:59). -/
def endOfMonth (now : DateTime) : DateTime :=
  ⟨now.year, now.month, daysInMonth now.year now.month, 0, 0⟩

/-- Result record of `getFinancialSummary`. -/
structure FinancialSummary where
  totalBalance : ℚ
  monthlyBurn : ℚ
  monthlyRevenue : ℚ
  runwayMonths : ℚ
deriving DecidableEq, Repr

/-- One element of the `getExpenseBreakdown` result. -/
structure BreakdownEntry where
  category : String
  amount : ℚ
  percentage : ℚ
deriving DecidableEq, Repr

/-- Label fallback `transaction.category || "Uncategorized"`: both `null` and the empty
string are falsy in JavaScript, so both fall back to the literal label. -/
def categoryLabel (c : Option String) : String :=
  match c with
  | none => "Uncategorized"
  | some s => if s = "" then "Uncategorized" else s

/-- One step of the `reduce` that builds `categoryTotals`:
`acc[category] = (acc[category] || 0) + amount` on an insertion-ordered
record. -/
def addToCategory (acc : List (String × ℚ)) (cat : String) (amt : ℚ) :
    List (String × ℚ) :=
  match acc with
  | [] => [(cat, amt)]
  | (c, v) :: rest =>
      if c = cat then (c, v + amt) :: rest
      else (c, v) :: addToCategory rest cat amt

/-- `expenseTransactions.reduce((acc, transaction) => { ... }, {})` from
`getExpenseBreakdown`. -/
def categoryTotals (txs : List Transaction) : List (String × ℚ) :=
  txs.foldl
    (fun acc t => addToCategory acc (categoryLabel t.category) |t.amount|) []

namespace DatabaseStorage

/-- The rows of the drizzle query
`select from accounts where eq(accounts.userId, userId)` run against the
in-memory table `accts`. -/
def accountsData (userId : String) (accts : List Account) : List Account :=
  accts.filter (fun a => a.userId == userId)

/-- The rows of the drizzle query with
`and(eq(transactions.userId, userId), gte(transactions.date, startOfMonth),
lte(transactions.date, endOfMonth))`. -/
def monthlyTransactions (userId : String) (now : DateTime)
    (txs : List Transaction) : List Transaction :=
  txs.filter (fun t =>
    (t.userId == userId && DateTime.le (startOfMonth now) t.date) &&
      DateTime.le t.date (endOfMonth now))

/-- `accountsData.reduce((sum, account) => sum + parseFloat(account.balance
|| "0"), 0)` (storage.ts 294-295). -/
def totalBalance (userId : String) (accts : List Account) : ℚ :=
  (accountsData userId accts).foldl (fun s a => s + a.balance) 0

/-- Fold `monthlyTransactions.filter(t => t.type === "expense").reduce((sum, t) =>
sum + Math.abs(parseFloat(t.amount)), 0)` (storage.ts 313-315). -/
def monthlyExpenses (userId : String) (now : DateTime)
    (txs : List Transaction) : ℚ :=
  ((monthlyTransactions userId now txs).filter
      (fun t => t.type == TxType.expense)).foldl
    (fun s t => s + |t.amount|) 0

/-- Fold `monthlyTransactions.filter(t => t.type === "income").reduce((sum, t) =>
sum + parseFloat(t.amount), 0)` (storage.ts 317-319). -/
def monthlyRevenue (userId : String) (now : DateTime)
    (txs : List Transaction) : ℚ :=
  ((monthlyTransactions userId now txs).filter
      (fun t => t.type == TxType.income)).foldl
    (fun s t => s + t.amount) 0

/-- `DatabaseStorage.getFinancialSummary` (storage.ts lines 282-330) over the
account rows `accts` and transaction rows `txs` of the user, with the clock value
`now` made explicit. -/
def getFinancialSummary (userId : String) (now : DateTime)
    (accts : List Account) (txs : List Transaction) : FinancialSummary :=
  let monthlyBurn :=
    monthlyExpenses userId now txs - monthlyRevenue userId now txs
  let runwayMonths :=
    if monthlyBurn > 0 then totalBalance userId accts / monthlyBurn else 999
  ⟨totalBalance userId accts, monthlyBurn, monthlyRevenue userId now txs,
    runwayMonths⟩

/-- The rows of the drizzle query with
`and(eq(userId), eq(type, expense), gte(date, startOfMonth),
lte(date, endOfMonth))` from `getExpenseBreakdown`. -/
def expenseTransactions (userId : String) (now : DateTime)
    (txs : List Transaction) : List Transaction :=
  txs.filter (fun t =>
    ((t.userId == userId && t.type == TxType.expense) &&
        DateTime.le (startOfMonth now) t.date) &&
      DateTime.le t.date (endOfMonth now))

/-- `Object.values(categoryTotals).reduce((sum, amount) => sum + amount, 0)`
(storage.ts 360). -/
def totalExpenses (userId : String) (now : DateTime)
    (txs : List Transaction) : ℚ :=
  (categoryTotals (expenseTransactions userId now txs)).foldl
    (fun s p => s + p.2) 0

/-- `DatabaseStorage.getExpenseBreakdown` (storage.ts lines 332-367). -/
def getExpenseBreakdown (userId : String) (now : DateTime)
    (txs : List Transaction) : List BreakdownEntry :=
  (categoryTotals (expenseTransactions userId now txs)).map (fun p =>
    ⟨p.1, p.2,
      if totalExpenses userId now txs > 0
      then p.2 / totalExpenses userId now txs * 100 else 0⟩)

end DatabaseStorage

namespace MockStorage

/-- `this.transactions.filter(t => t.userId === userId && new Date(t.date) >=
startOfMonth && new Date(t.date) <= endOfMonth)` (mock-storage.ts 410-414);
`&&` associates left in JavaScript. -/
def monthlyTransactions (userId : String) (now : DateTime)
    (txs : List Transaction) : List Transaction :=
  txs.filter (fun t =>
    (t.userId == userId && DateTime.le (startOfMonth now) t.date) &&
      DateTime.le t.date (endOfMonth now))

/-- `this.accounts.filter(a => a.userId === userId)` then
`userAccounts.reduce((sum, account) => sum + parseFloat(account.balance ||
"0"), 0)` (mock-storage.ts 401-403). -/
def totalBalance (userId : String) (accts : List Account) : ℚ :=
  (accts.filter (fun a => a.userId == userId)).foldl
    (fun s a => s + a.balance) 0

/-- Expense component of the mock summary (mock-storage.ts 416-418). -/
def monthlyExpenses (userId : String) (now : DateTime)
    (txs : List Transaction) : ℚ :=
  ((monthlyTransactions userId now txs).filter
      (fun t => t.type == TxType.expense)).foldl
    (fun s t => s + |t.amount|) 0

/-- Revenue component of the mock summary (mock-storage.ts 420-422). -/
def monthlyRevenue (userId : String) (now : DateTime)
    (txs : List Transaction) : ℚ :=
  ((monthlyTransactions userId now txs).filter
      (fun t => t.type == TxType.income)).foldl
    (fun s t => s + t.amount) 0

/-- `MockStorage.getFinancialSummary` (mock-storage.ts lines 400-433). -/
def getFinancialSummary (userId : String) (now : DateTime)
    (accts : List Account) (txs : List Transaction) : FinancialSummary :=
  let monthlyBurn :=
    monthlyExpenses userId now txs - monthlyRevenue userId now txs
  let runwayMonths :=
    if monthlyBurn > 0 then totalBalance userId accts / monthlyBurn else 999
  ⟨totalBalance userId accts, monthlyBurn, monthlyRevenue userId now txs,
    runwayMonths⟩

/-- `this.transactions.filter(t => t.userId === userId && t.type ===
"expense" && new Date(t.date) >= startOfMonth && new Date(t.date) <=
endOfMonth)` (mock-storage.ts 440-445). -/
def expenseTransactions (userId : String) (now : DateTime)
    (txs : List Transaction) : List Transaction :=
  txs.filter (fun t =>
    ((t.userId == userId && t.type == TxType.expense) &&
        DateTime.le (startOfMonth now) t.date) &&
      DateTime.le t.date (endOfMonth now))

/-- `Object.values(categoryTotals).reduce(...)` of the mock breakdown
(mock-storage.ts 454). -/
def totalExpenses (userId : String) (now : DateTime)
    (txs : List Transaction) : ℚ :=
  (categoryTotals (expenseTransactions userId now txs)).foldl
    (fun s p => s + p.2) 0

/-- `MockStorage.getExpenseBreakdown` (mock-storage.ts lines 435-461). -/
def getExpenseBreakdown (userId : String) (now : DateTime)
    (txs : List Transaction) : List BreakdownEntry :=
  (categoryTotals (expenseTransactions userId now txs)).map (fun p =>
    ⟨p.1, p.2,
      if totalExpenses userId now txs > 0
      then p.2 / totalExpenses userId now txs * 100 else 0⟩)

end MockStorage

/-- Sign-flip transform on a transaction list: negate the stored amount of
the expense transactions selected by `flip` and leave everything else
untouched.  Used to express the sign convention of the spec: expense amounts may
be stored negative or positive. -/
def flipAmount (flip : Transaction → Bool) (t : Transaction) : Transaction :=
  if t.type == TxType.expense && flip t
  then ⟨t.userId, -t.amount, t.category, t.date, t.type⟩ else t

/-- A fixed clock value for the concrete scenarios: January 15 2025, 10:00
server-local time. -/
def sampleNow : DateTime := ⟨2025, 0, 15, 10, 0⟩

/-- The two demo accounts of the spec scenario (balances "45000.00" and
"125000.00"). -/
def sampleAccounts : List Account := [⟨"u1", 45000, true⟩, ⟨"u1", 125000, true⟩]

/-- The demo expense of the spec scenario: type expense, amount "-2847.00",
category Engineering, dated inside the current month. -/
def sampleExpense : Transaction :=
  ⟨"u1", -2847, some "Engineering", ⟨2025, 0, 5, 12, 0⟩, TxType.expense⟩

/-- The demo income of the spec scenario: type income, amount "45000.00",
category Revenue, dated inside the current month. -/
def sampleIncome : Transaction :=
  ⟨"u1", 45000, some "Revenue", ⟨2025, 0, 7, 9, 0⟩, TxType.income⟩

/-- A transfer transaction dated inside the current month, for the claims
about types other than expense/income. -/
def sampleTransfer : Transaction :=
  ⟨"u1", 777, some "Internal", ⟨2025, 0, 9, 8, 0⟩, TxType.transfer⟩

/-! ### Small computation lemmas -/

theorem expense_beq_expense : (TxType.expense == TxType.expense) = true := rfl

theorem income_beq_expense : (TxType.income == TxType.expense) = false := rfl

theorem transfer_beq_expense : (TxType.transfer == TxType.expense) = false := rfl

theorem expense_beq_income : (TxType.expense == TxType.income) = false := rfl

theorem income_beq_income : (TxType.income == TxType.income) = true := rfl

theorem transfer_beq_income : (TxType.transfer == TxType.income) = false := rfl

/-- A fold accumulating `g` over a list is the accumulator plus the sum of
the mapped list. -/
theorem foldl_add_map {α : Type} (g : α → ℚ) (l : List α) (c : ℚ) :
    l.foldl (fun s a => s + g a) c = c + (l.map g).sum := by
  induction l generalizing c with
  | nil => simp
  | cons a l ih =>
      simp only [List.foldl_cons, List.map_cons, List.sum_cons, ih]
      ring

/-- Inserting an amount into the category record adds it to the total of the
stored values. -/
theorem addToCategory_snd_sum (acc : List (String × ℚ)) (cat : String)
    (amt : ℚ) :
    ((addToCategory acc cat amt).map Prod.snd).sum
      = (acc.map Prod.snd).sum + amt := by
  induction acc with
  | nil => simp [addToCategory]
  | cons p rest ih =>
      obtain ⟨c, v⟩ := p
      by_cases h : c = cat
      · simp only [addToCategory, if_pos h, List.map_cons, List.sum_cons]
        ring
      · simp only [addToCategory, if_neg h, List.map_cons, List.sum_cons, ih]
        ring

/-- The inserted key is present after `addToCategory`. -/
theorem mem_keys_addToCategory_self (acc : List (String × ℚ)) (cat : String)
    (amt : ℚ) :
    cat ∈ (addToCategory acc cat amt).map Prod.fst := by
  induction acc with
  | nil => simp [addToCategory]
  | cons p rest ih =>
      obtain ⟨c, v⟩ := p
      by_cases h : c = cat
      · simp [addToCategory, h]
      · simp only [addToCategory, if_neg h, List.map_cons, List.mem_cons]
        exact Or.inr ih

/-- Keys already in the record survive `addToCategory`. -/
theorem mem_keys_addToCategory_of_mem (acc : List (String × ℚ))
    (cat k : String) (amt : ℚ) (hk : k ∈ acc.map Prod.fst) :
    k ∈ (addToCategory acc cat amt).map Prod.fst := by
  induction acc with
  | nil => simp at hk
  | cons p rest ih =>
      obtain ⟨c, v⟩ := p
      by_cases h : c = cat
      · simpa [addToCategory, h] using hk
      · simp only [List.map_cons, List.mem_cons] at hk
        rcases hk with hk | hk
        · simp [addToCategory, h, hk]
        · simp only [addToCategory, if_neg h, List.map_cons, List.mem_cons]
          exact Or.inr (ih hk)

/-- Keys in the accumulator survive the whole grouping fold. -/
theorem mem_keys_foldl_of_mem (txs : List Transaction)
    (acc : List (String × ℚ)) (k : String) (hk : k ∈ acc.map Prod.fst) :
    k ∈ ((txs.foldl
        (fun acc t => addToCategory acc (categoryLabel t.category) |t.amount|)
        acc).map Prod.fst) := by
  induction txs generalizing acc with
  | nil => simpa using hk
  | cons t txs ih =>
      exact ih _ (mem_keys_addToCategory_of_mem _ _ _ _ hk)

/-- Every transaction of the fold leaves its category label among the keys
of the resulting record. -/
theorem label_mem_keys_foldl (txs : List Transaction)
    (acc : List (String × ℚ)) (t : Transaction) (ht : t ∈ txs) :
    categoryLabel t.category ∈
      ((txs.foldl
          (fun acc t => addToCategory acc (categoryLabel t.category) |t.amount|)
          acc).map Prod.fst) := by
  induction txs generalizing acc with
  | nil => cases ht
  | cons t0 txs ih =>
      rcases List.mem_cons.mp ht with h | h
      · subst h
        exact mem_keys_foldl_of_mem txs _ _ (mem_keys_addToCategory_self acc _ _)
      · exact ih _ h

/-- The grouping fold conserves total amount: the values of the record sum
to the accumulator total plus the summed absolute amounts. -/
theorem foldl_addToCategory_snd_sum (txs : List Transaction)
    (acc : List (String × ℚ)) :
    ((txs.foldl
        (fun acc t => addToCategory acc (categoryLabel t.category) |t.amount|)
        acc).map Prod.snd).sum
      = (acc.map Prod.snd).sum + (txs.map fun t => |t.amount|).sum := by
  induction txs generalizing acc with
  | nil => simp
  | cons t txs ih =>
      simp only [List.foldl_cons, List.map_cons, List.sum_cons, ih,
        addToCategory_snd_sum]
      ring

/-- Group totals conserve the summed absolute amounts of the grouped
transactions. -/
theorem categoryTotals_snd_sum (txs : List Transaction) :
    ((categoryTotals txs).map Prod.snd).sum
      = (txs.map fun t => |t.amount|).sum := by
  simpa [categoryTotals] using foldl_addToCategory_snd_sum txs []

/-- Distributing a division and scaling over a summed list. -/
theorem sum_map_div_mul (l : List (String × ℚ)) (T : ℚ) :
    (l.map fun p => p.2 / T * 100).sum = (l.map Prod.snd).sum / T * 100 := by
  induction l with
  | nil => simp
  | cons p l ih =>
      simp only [List.map_cons, List.sum_cons, ih]
      ring

/-! ### Characterizations of the summary fields -/

theorem DatabaseStorage.summary_totalBalance (u : String) (now : DateTime)
    (accts : List Account) (txs : List Transaction) :
    (DatabaseStorage.getFinancialSummary u now accts txs).totalBalance
      = DatabaseStorage.totalBalance u accts := rfl

theorem DatabaseStorage.summary_monthlyRevenue (u : String) (now : DateTime)
    (accts : List Account) (txs : List Transaction) :
    (DatabaseStorage.getFinancialSummary u now accts txs).monthlyRevenue
      = DatabaseStorage.monthlyRevenue u now txs := rfl

theorem DatabaseStorage.summary_monthlyBurn (u : String) (now : DateTime)
    (accts : List Account) (txs : List Transaction) :
    (DatabaseStorage.getFinancialSummary u now accts txs).monthlyBurn
      = DatabaseStorage.monthlyExpenses u now txs
          - DatabaseStorage.monthlyRevenue u now txs := rfl

theorem DatabaseStorage.summary_runwayMonths (u : String) (now : DateTime)
    (accts : List Account) (txs : List Transaction) :
    (DatabaseStorage.getFinancialSummary u now accts txs).runwayMonths
      = if (DatabaseStorage.getFinancialSummary u now accts txs).monthlyBurn > 0
        then (DatabaseStorage.getFinancialSummary u now accts txs).totalBalance
              / (DatabaseStorage.getFinancialSummary u now accts txs).monthlyBurn
        else 999 := rfl

theorem DatabaseStorage.totalBalance_eq_sum (u : String)
    (accts : List Account) :
    DatabaseStorage.totalBalance u accts
      = ((accts.filter fun a => a.userId == u).map Account.balance).sum := by
  simpa [DatabaseStorage.totalBalance, DatabaseStorage.accountsData] using
    foldl_add_map Account.balance (accts.filter fun a => a.userId == u) 0

theorem DatabaseStorage.monthlyExpenses_eq_sum (u : String) (now : DateTime)
    (txs : List Transaction) :
    DatabaseStorage.monthlyExpenses u now txs
      = (((DatabaseStorage.monthlyTransactions u now txs).filter
            fun t => t.type == TxType.expense).map fun t => |t.amount|).sum := by
  simpa [DatabaseStorage.monthlyExpenses] using
    foldl_add_map (fun t : Transaction => |t.amount|)
      ((DatabaseStorage.monthlyTransactions u now txs).filter
        fun t => t.type == TxType.expense) 0

theorem DatabaseStorage.monthlyRevenue_eq_sum (u : String) (now : DateTime)
    (txs : List Transaction) :
    DatabaseStorage.monthlyRevenue u now txs
      = (((DatabaseStorage.monthlyTransactions u now txs).filter
            fun t => t.type == TxType.income).map Transaction.amount).sum := by
  simpa [DatabaseStorage.monthlyRevenue] using
    foldl_add_map Transaction.amount
      ((DatabaseStorage.monthlyTransactions u now txs).filter
        fun t => t.type == TxType.income) 0

theorem DatabaseStorage.totalExpenses_eq_sum (u : String) (now : DateTime)
    (txs : List Transaction) :
    DatabaseStorage.totalExpenses u now txs
      = ((categoryTotals (DatabaseStorage.expenseTransactions u now txs)).map
          Prod.snd).sum := by
  simpa [DatabaseStorage.totalExpenses] using
    foldl_add_map (Prod.snd (α := String) (β := ℚ))
      (categoryTotals (DatabaseStorage.expenseTransactions u now txs)) 0

/-! ### Behaviour of the sign-flip transform -/

theorem flipAmount_userId (flip : Transaction → Bool) (t : Transaction) :
    (flipAmount flip t).userId = t.userId := by
  unfold flipAmount
  split <;> rfl

theorem flipAmount_date (flip : Transaction → Bool) (t : Transaction) :
    (flipAmount flip t).date = t.date := by
  unfold flipAmount
  split <;> rfl

theorem flipAmount_type (flip : Transaction → Bool) (t : Transaction) :
    (flipAmount flip t).type = t.type := by
  unfold flipAmount
  split <;> rfl

theorem flipAmount_abs_amount (flip : Transaction → Bool) (t : Transaction) :
    |(flipAmount flip t).amount| = |t.amount| := by
  unfold flipAmount
  split
  · simp
  · rfl

theorem flipAmount_of_ne_expense (flip : Transaction → Bool) (t : Transaction)
    (h : t.type ≠ TxType.expense) : flipAmount flip t = t := by
  unfold flipAmount
  have hb : (t.type == TxType.expense) = false := by
    simpa using h
  simp [hb]

theorem monthlyTransactions_map_flip (u : String) (now : DateTime)
    (txs : List Transaction) (flip : Transaction → Bool) :
    DatabaseStorage.monthlyTransactions u now (txs.map (flipAmount flip))
      = (DatabaseStorage.monthlyTransactions u now txs).map (flipAmount flip) := by
  unfold DatabaseStorage.monthlyTransactions
  rw [List.filter_map]
  congr 1
  apply List.filter_congr
  intro t _
  simp [Function.comp, flipAmount_userId, flipAmount_date]

theorem monthlyExpenses_map_flip (u : String) (now : DateTime)
    (txs : List Transaction) (flip : Transaction → Bool) :
    DatabaseStorage.monthlyExpenses u now (txs.map (flipAmount flip))
      = DatabaseStorage.monthlyExpenses u now txs := by
  rw [DatabaseStorage.monthlyExpenses_eq_sum, DatabaseStorage.monthlyExpenses_eq_sum,
    monthlyTransactions_map_flip, List.filter_map]
  have hfil : (DatabaseStorage.monthlyTransactions u now txs).filter
        ((fun t => t.type == TxType.expense) ∘ flipAmount flip)
      = (DatabaseStorage.monthlyTransactions u now txs).filter
        (fun t => t.type == TxType.expense) := by
    apply List.filter_congr
    intro t _
    simp [Function.comp, flipAmount_type]
  rw [hfil, List.map_map]
  congr 1
  apply List.map_congr_left
  intro t _
  exact flipAmount_abs_amount flip t

theorem monthlyRevenue_map_flip (u : String) (now : DateTime)
    (txs : List Transaction) (flip : Transaction → Bool) :
    DatabaseStorage.monthlyRevenue u now (txs.map (flipAmount flip))
      = DatabaseStorage.monthlyRevenue u now txs := by
  rw [DatabaseStorage.monthlyRevenue_eq_sum, DatabaseStorage.monthlyRevenue_eq_sum,
    monthlyTransactions_map_flip, List.filter_map]
  have hfil : (DatabaseStorage.monthlyTransactions u now txs).filter
        ((fun t => t.type == TxType.income) ∘ flipAmount flip)
      = (DatabaseStorage.monthlyTransactions u now txs).filter
        (fun t => t.type == TxType.income) := by
    apply List.filter_congr
    intro t _
    simp [Function.comp, flipAmount_type]
  rw [hfil, List.map_map]
  congr 1
  apply List.map_congr_left
  intro t ht
  have hty : t.type = TxType.income := by
    have := (List.mem_filter.mp ht).2
    simpa using this
  have : flipAmount flip t = t :=
    flipAmount_of_ne_expense flip t (by rw [hty]; intro h; cases h)
  simp [Function.comp, this]

/-! ### Inserting a transaction of an inert type -/

theorem monthly_filter_insert (u : String) (now : DateTime)
    (pre post : List Transaction) (t : Transaction) (ty : TxType)
    (h : t.type ≠ ty) :
    (DatabaseStorage.monthlyTransactions u now (pre ++ t :: post)).filter
        (fun x => x.type == ty)
      = (DatabaseStorage.monthlyTransactions u now (pre ++ post)).filter
        (fun x => x.type == ty) := by
  unfold DatabaseStorage.monthlyTransactions
  have hq : (t.type == ty) = false := by simpa using h
  simp only [List.filter_filter, List.filter_append, List.filter_cons]
  split
  · simp [List.filter_cons, hq, List.filter_filter]
  · simp [List.filter_filter]

theorem expenseTransactions_insert (u : String) (now : DateTime)
    (pre post : List Transaction) (t : Transaction)
    (h : t.type ≠ TxType.expense) :
    DatabaseStorage.expenseTransactions u now (pre ++ t :: post)
      = DatabaseStorage.expenseTransactions u now (pre ++ post) := by
  unfold DatabaseStorage.expenseTransactions
  have hq : (t.type == TxType.expense) = false := by simpa using h
  simp [List.filter_append, List.filter_cons, hq]

/-- Changing only the active flags of the accounts does not change the
balance total: the aggregation never reads `isActive`. -/
theorem totalBalance_isActive_invariant (u : String) (accts : List Account) :
    DatabaseStorage.totalBalance u
        (accts.map fun a => ⟨a.userId, a.balance, !a.isActive⟩)
      = DatabaseStorage.totalBalance u accts := by
  rw [DatabaseStorage.totalBalance_eq_sum, DatabaseStorage.totalBalance_eq_sum]
  induction accts with
  | nil => rfl
  | cons a l ih =>
      simp only [List.map_cons, List.filter_cons]
      cases h : (a.userId == u) <;> simp [h, ih]

/-- Category labels survive into the breakdown entries. -/
theorem label_mem_keys_categoryTotals (txs : List Transaction)
    (t : Transaction) (ht : t ∈ txs) :
    categoryLabel t.category ∈ (categoryTotals txs).map Prod.fst := by
  simpa [categoryTotals] using label_mem_keys_foldl txs [] t ht

/-- Summing the percentage column of the mapped breakdown entries when the
total is positive. -/
theorem sum_percentage (l : List (String × ℚ)) (T : ℚ) (hT : 0 < T) :
    ((l.map fun p =>
        (⟨p.1, p.2, if T > 0 then p.2 / T * 100 else 0⟩ : BreakdownEntry)).map
      BreakdownEntry.percentage).sum = (l.map Prod.snd).sum / T * 100 := by
  induction l with
  | nil => simp
  | cons p l ih =>
      simp only [List.map_cons, List.sum_cons]
      rw [ih]
      show (if T > 0 then p.2 / T * 100 else 0) + _ = _
      rw [if_pos hT]
      ring

/-! ### Claims -/

/-- C1, counterexample: the biconditional form of the claim fails at a
concrete input.  With one account of balance 999 and one in-month expense of
1, monthlyBurn = 1 > 0 and runwayMonths = 999 / 1 = 999, so runwayMonths
equals the sentinel 999 even though monthlyBurn is positive: the direction
"runwayMonths = 999 implies monthlyBurn <= 0" is false. -/
theorem C1_sentinel_counterexample :
    0 < (DatabaseStorage.getFinancialSummary "u1" sampleNow [⟨"u1", 999, true⟩]
          [⟨"u1", 1, some "Ops", ⟨2025, 0, 10, 0, 0⟩, TxType.expense⟩]).monthlyBurn
  ∧ ¬ (((DatabaseStorage.getFinancialSummary "u1" sampleNow [⟨"u1", 999, true⟩]
          [⟨"u1", 1, some "Ops", ⟨2025, 0, 10, 0, 0⟩, TxType.expense⟩]).runwayMonths
            = 999)
        ↔ (DatabaseStorage.getFinancialSummary "u1" sampleNow [⟨"u1", 999, true⟩]
            [⟨"u1", 1, some "Ops", ⟨2025, 0, 10, 0, 0⟩, TxType.expense⟩]).monthlyBurn
          ≤ 0) := by
  have h : DatabaseStorage.getFinancialSummary "u1" sampleNow [⟨"u1", 999, true⟩]
      [⟨"u1", 1, some "Ops", ⟨2025, 0, 10, 0, 0⟩, TxType.expense⟩]
      = ⟨999, 1, 0, 999⟩ := by
    simp [DatabaseStorage.getFinancialSummary, DatabaseStorage.totalBalance,
      DatabaseStorage.accountsData, DatabaseStorage.monthlyExpenses,
      DatabaseStorage.monthlyRevenue, DatabaseStorage.monthlyTransactions,
      startOfMonth, endOfMonth, daysInMonth, DateTime.le, sampleNow,
      expense_beq_expense, expense_beq_income]
  rw [h]
  norm_num

/-- C1, amended: runwayMonths equals totalBalance / monthlyBurn whenever
monthlyBurn > 0, and equals the sentinel 999 whenever monthlyBurn <= 0 (the
division branch is not taken in that case); the "if and only if" phrasing
fails only in the coincidence where the quotient itself is 999. -/
theorem C1_runway_guard (u : String) (now : DateTime) (accts : List Account)
    (txs : List Transaction) :
    (0 < (DatabaseStorage.getFinancialSummary u now accts txs).monthlyBurn →
      (DatabaseStorage.getFinancialSummary u now accts txs).runwayMonths
        = (DatabaseStorage.getFinancialSummary u now accts txs).totalBalance
            / (DatabaseStorage.getFinancialSummary u now accts txs).monthlyBurn)
  ∧ ((DatabaseStorage.getFinancialSummary u now accts txs).monthlyBurn ≤ 0 →
      (DatabaseStorage.getFinancialSummary u now accts txs).runwayMonths
        = 999) := by
  constructor
  · intro hpos
    rw [DatabaseStorage.summary_runwayMonths, if_pos hpos]
  · intro hle
    rw [DatabaseStorage.summary_runwayMonths, if_neg (not_lt.mpr hle)]

/-- Witness for C1: the spec scenario with expenses 6000 and revenue 1000
has positive burn, and its runway is the quotient. -/
theorem C1_runway_guard_witness :
    0 < (DatabaseStorage.getFinancialSummary "u1" sampleNow sampleAccounts
          [⟨"u1", 6000, some "Ops", ⟨2025, 0, 4, 0, 0⟩, TxType.expense⟩,
            ⟨"u1", 1000, some "Revenue", ⟨2025, 0, 6, 0, 0⟩, TxType.income⟩]).monthlyBurn
  ∧ (DatabaseStorage.getFinancialSummary "u1" sampleNow sampleAccounts
        [⟨"u1", 6000, some "Ops", ⟨2025, 0, 4, 0, 0⟩, TxType.expense⟩,
          ⟨"u1", 1000, some "Revenue", ⟨2025, 0, 6, 0, 0⟩, TxType.income⟩]).runwayMonths
      = (DatabaseStorage.getFinancialSummary "u1" sampleNow sampleAccounts
          [⟨"u1", 6000, some "Ops", ⟨2025, 0, 4, 0, 0⟩, TxType.expense⟩,
            ⟨"u1", 1000, some "Revenue", ⟨2025, 0, 6, 0, 0⟩, TxType.income⟩]).totalBalance
        / (DatabaseStorage.getFinancialSummary "u1" sampleNow sampleAccounts
            [⟨"u1", 6000, some "Ops", ⟨2025, 0, 4, 0, 0⟩, TxType.expense⟩,
              ⟨"u1", 1000, some "Revenue", ⟨2025, 0, 6, 0, 0⟩, TxType.income⟩]).monthlyBurn := by
  have hpos : 0 < (DatabaseStorage.getFinancialSummary "u1" sampleNow sampleAccounts
      [⟨"u1", 6000, some "Ops", ⟨2025, 0, 4, 0, 0⟩, TxType.expense⟩,
        ⟨"u1", 1000, some "Revenue", ⟨2025, 0, 6, 0, 0⟩, TxType.income⟩]).monthlyBurn := by
    rw [DatabaseStorage.summary_monthlyBurn]
    norm_num [DatabaseStorage.monthlyExpenses, DatabaseStorage.monthlyRevenue,
      DatabaseStorage.monthlyTransactions, startOfMonth, endOfMonth,
      daysInMonth, DateTime.le, sampleNow, expense_beq_expense,
      income_beq_expense, expense_beq_income, income_beq_income]
  exact ⟨hpos, (C1_runway_guard "u1" sampleNow sampleAccounts
    [⟨"u1", 6000, some "Ops", ⟨2025, 0, 4, 0, 0⟩, TxType.expense⟩,
      ⟨"u1", 1000, some "Revenue", ⟨2025, 0, 6, 0, 0⟩, TxType.income⟩]).1 hpos⟩

/-- C2, code-bug evaluation: the month window of the code ends at the last
day at 00:00 (`new Date(year, month + 1, 0)`), not at 23:59.  With now =
Jan 15 2025, the timestamp Jan 31 2025 12:00 lies between the first day
00:00 and the last day 23:59 (the window the claim states), yet the code
computes endOfMonth = Jan 31 00:00 and its `lte` filter rejects the
transaction, so an income of 100 dated then contributes nothing to the
summary; the same transaction dated Jan 30 12:00 is kept. -/
theorem C2_last_day_excluded :
    DateTime.le (startOfMonth sampleNow) ⟨2025, 0, 31, 12, 0⟩ = true
  ∧ DateTime.le ⟨2025, 0, 31, 12, 0⟩ ⟨2025, 0, 31, 23, 59⟩ = true
  ∧ endOfMonth sampleNow = ⟨2025, 0, 31, 0, 0⟩
  ∧ DateTime.le ⟨2025, 0, 31, 12, 0⟩ (endOfMonth sampleNow) = false
  ∧ DatabaseStorage.monthlyTransactions "u1" sampleNow
      [⟨"u1", 100, some "Revenue", ⟨2025, 0, 31, 12, 0⟩, TxType.income⟩] = []
  ∧ (DatabaseStorage.getFinancialSummary "u1" sampleNow []
      [⟨"u1", 100, some "Revenue", ⟨2025, 0, 31, 12, 0⟩, TxType.income⟩]).monthlyRevenue
      = 0
  ∧ DatabaseStorage.monthlyTransactions "u1" sampleNow
      [⟨"u1", 100, some "Revenue", ⟨2025, 0, 30, 12, 0⟩, TxType.income⟩]
      = [⟨"u1", 100, some "Revenue", ⟨2025, 0, 30, 12, 0⟩, TxType.income⟩] := by
  refine ⟨by decide, by decide, by decide, by decide, by decide, ?_, by decide⟩
  rw [DatabaseStorage.summary_monthlyRevenue]
  have h : DatabaseStorage.monthlyTransactions "u1" sampleNow
      [⟨"u1", 100, some "Revenue", ⟨2025, 0, 31, 12, 0⟩, TxType.income⟩] = [] := by
    decide
  unfold DatabaseStorage.monthlyRevenue
  rw [h]
  rfl

/-- C3: the balance total of the summary is the sum of the parsed balances
over the accounts of the user, with no filtering on the active flag
(toggling every flag leaves it unchanged), and it is 0 when the user has no
accounts. -/
theorem C3_totalBalance (u : String) (now : DateTime) (accts : List Account)
    (txs : List Transaction) :
    (DatabaseStorage.getFinancialSummary u now accts txs).totalBalance
        = ((accts.filter fun a => a.userId == u).map Account.balance).sum
  ∧ (DatabaseStorage.getFinancialSummary u now
        (accts.map fun a => ⟨a.userId, a.balance, !a.isActive⟩) txs).totalBalance
      = (DatabaseStorage.getFinancialSummary u now accts txs).totalBalance
  ∧ ((accts.filter fun a => a.userId == u) = [] →
      (DatabaseStorage.getFinancialSummary u now accts txs).totalBalance = 0) := by
  refine ⟨?_, ?_, ?_⟩
  · rw [DatabaseStorage.summary_totalBalance, DatabaseStorage.totalBalance_eq_sum]
  · rw [DatabaseStorage.summary_totalBalance, DatabaseStorage.summary_totalBalance,
      totalBalance_isActive_invariant]
  · intro h
    rw [DatabaseStorage.summary_totalBalance, DatabaseStorage.totalBalance_eq_sum,
      h]
    rfl

/-- Witness for C3: a user with no matching accounts gets balance total 0. -/
theorem C3_totalBalance_witness :
    (([⟨"someone", 50, true⟩] : List Account).filter
        fun a => a.userId == "u1") = []
  ∧ (DatabaseStorage.getFinancialSummary "u1" sampleNow
      [⟨"someone", 50, true⟩] []).totalBalance = 0 :=
  ⟨by decide,
    (C3_totalBalance "u1" sampleNow [⟨"someone", 50, true⟩] []).2.2 (by decide)⟩

/-- C4: monthlyExpenses is the sum of the absolute parsed amounts of the
expense transactions of the month, monthlyRevenue is the sum of the raw
signed parsed amounts of the income transactions, and the summary is
unchanged when the sign of any selection of expense amounts is flipped. -/
theorem C4_sign_convention (u : String) (now : DateTime) (accts : List Account)
    (txs : List Transaction) (flip : Transaction → Bool) :
    DatabaseStorage.monthlyExpenses u now txs
        = (((DatabaseStorage.monthlyTransactions u now txs).filter
            fun t => t.type == TxType.expense).map fun t => |t.amount|).sum
  ∧ (DatabaseStorage.getFinancialSummary u now accts txs).monthlyRevenue
        = (((DatabaseStorage.monthlyTransactions u now txs).filter
            fun t => t.type == TxType.income).map Transaction.amount).sum
  ∧ DatabaseStorage.getFinancialSummary u now accts (txs.map (flipAmount flip))
      = DatabaseStorage.getFinancialSummary u now accts txs := by
  refine ⟨DatabaseStorage.monthlyExpenses_eq_sum u now txs, ?_, ?_⟩
  · rw [DatabaseStorage.summary_monthlyRevenue,
      DatabaseStorage.monthlyRevenue_eq_sum]
  · unfold DatabaseStorage.getFinancialSummary
    rw [monthlyExpenses_map_flip, monthlyRevenue_map_flip]

/-- C5: with no transactions in the month, monthlyBurn is 0 and
runwayMonths is the sentinel 999; with no expense transactions in the
month, the breakdown is the empty list.  Both functions are total, so no
failure is possible on empty input. -/
theorem C5_empty_inputs (u : String) (now : DateTime) (accts : List Account)
    (txs : List Transaction) :
    (DatabaseStorage.monthlyTransactions u now txs = [] →
      (DatabaseStorage.getFinancialSummary u now accts txs).monthlyBurn = 0
        ∧ (DatabaseStorage.getFinancialSummary u now accts txs).runwayMonths
            = 999)
  ∧ (DatabaseStorage.expenseTransactions u now txs = [] →
      DatabaseStorage.getExpenseBreakdown u now txs = []) := by
  constructor
  · intro h
    have hE : DatabaseStorage.monthlyExpenses u now txs = 0 := by
      unfold DatabaseStorage.monthlyExpenses
      rw [h]
      rfl
    have hR : DatabaseStorage.monthlyRevenue u now txs = 0 := by
      unfold DatabaseStorage.monthlyRevenue
      rw [h]
      rfl
    have hB : (DatabaseStorage.getFinancialSummary u now accts txs).monthlyBurn
        = 0 := by
      rw [DatabaseStorage.summary_monthlyBurn, hE, hR]
      norm_num
    refine ⟨hB, ?_⟩
    rw [DatabaseStorage.summary_runwayMonths, hB]
    norm_num
  · intro h
    unfold DatabaseStorage.getExpenseBreakdown
    rw [h]
    rfl

/-- Witness for C5: a user whose transaction table is empty. -/
theorem C5_empty_inputs_witness :
    (DatabaseStorage.getFinancialSummary "u1" sampleNow sampleAccounts
        []).monthlyBurn = 0
  ∧ (DatabaseStorage.getFinancialSummary "u1" sampleNow sampleAccounts
        []).runwayMonths = 999
  ∧ DatabaseStorage.getExpenseBreakdown "u1" sampleNow [] = [] :=
  ⟨((C5_empty_inputs "u1" sampleNow sampleAccounts []).1 (by decide)).1,
    ((C5_empty_inputs "u1" sampleNow sampleAccounts []).1 (by decide)).2,
    (C5_empty_inputs "u1" sampleNow sampleAccounts []).2 (by decide)⟩

/-- C6: the amounts of the breakdown entries sum to the summed absolute
amounts of all in-month expense transactions (every transaction lands in
exactly one group, none is dropped), every in-month expense transaction has
a breakdown entry carrying its category label, and a null or empty category
is labelled with the literal "Uncategorized". -/
theorem C6_grouping_conserves (u : String) (now : DateTime)
    (txs : List Transaction) :
    ((DatabaseStorage.getExpenseBreakdown u now txs).map
          BreakdownEntry.amount).sum
        = ((DatabaseStorage.expenseTransactions u now txs).map
            fun t => |t.amount|).sum
  ∧ (∀ t ∈ DatabaseStorage.expenseTransactions u now txs,
      ∃ e ∈ DatabaseStorage.getExpenseBreakdown u now txs,
        e.category = categoryLabel t.category)
  ∧ (∀ t : Transaction, t.category = none ∨ t.category = some "" →
      categoryLabel t.category = "Uncategorized") := by
  refine ⟨?_, ?_, ?_⟩
  · unfold DatabaseStorage.getExpenseBreakdown
    rw [List.map_map]
    exact categoryTotals_snd_sum _
  · intro t ht
    have hkey := label_mem_keys_categoryTotals
      (DatabaseStorage.expenseTransactions u now txs) t ht
    obtain ⟨p, hp, hps⟩ := List.mem_map.mp hkey
    exact ⟨_, List.mem_map_of_mem _ hp, hps⟩
  · intro t h
    rcases h with h | h <;> rw [h] <;> rfl

/-- Witness for C6: a concrete uncategorized expense inside the month. -/
theorem C6_grouping_witness :
    (⟨"u1", -50, none, ⟨2025, 0, 10, 0, 0⟩, TxType.expense⟩ : Transaction)
        ∈ DatabaseStorage.expenseTransactions "u1" sampleNow
          [⟨"u1", -50, none, ⟨2025, 0, 10, 0, 0⟩, TxType.expense⟩]
  ∧ categoryLabel
      (⟨"u1", -50, none, ⟨2025, 0, 10, 0, 0⟩, TxType.expense⟩
        : Transaction).category = "Uncategorized" :=
  ⟨by decide,
    (C6_grouping_conserves "u1" sampleNow
        [⟨"u1", -50, none, ⟨2025, 0, 10, 0, 0⟩, TxType.expense⟩]).2.2
      ⟨"u1", -50, none, ⟨2025, 0, 10, 0, 0⟩, TxType.expense⟩ (Or.inl rfl)⟩

/-- C7: every breakdown entry carries percentage = amount / totalExpenses *
100 when totalExpenses > 0 and percentage = 0 otherwise, and when
totalExpenses > 0 the percentages sum to exactly 100 (the embedding
computes in exact rationals, so the rounding epsilon of the claim is 0). -/
theorem C7_percentages (u : String) (now : DateTime) (txs : List Transaction) :
    (∀ e ∈ DatabaseStorage.getExpenseBreakdown u now txs,
        e.percentage
          = if DatabaseStorage.totalExpenses u now txs > 0
            then e.amount / DatabaseStorage.totalExpenses u now txs * 100
            else 0)
  ∧ (0 < DatabaseStorage.totalExpenses u now txs →
      ((DatabaseStorage.getExpenseBreakdown u now txs).map
          BreakdownEntry.percentage).sum = 100) := by
  constructor
  · intro e he
    unfold DatabaseStorage.getExpenseBreakdown at he
    obtain ⟨p, hp, hpe⟩ := List.mem_map.mp he
    subst hpe
    rfl
  · intro hT
    unfold DatabaseStorage.getExpenseBreakdown
    rw [sum_percentage _ _ hT, ← DatabaseStorage.totalExpenses_eq_sum,
      div_self (ne_of_gt hT), one_mul]

/-- Witness for C7: one expense of 2847 gives a positive total and a
percentage column summing to 100. -/
theorem C7_percentages_witness :
    0 < DatabaseStorage.totalExpenses "u1" sampleNow [sampleExpense]
  ∧ ((DatabaseStorage.getExpenseBreakdown "u1" sampleNow [sampleExpense]).map
      BreakdownEntry.percentage).sum = 100 := by
  have hT : 0 < DatabaseStorage.totalExpenses "u1" sampleNow [sampleExpense] := by
    norm_num [DatabaseStorage.totalExpenses, DatabaseStorage.expenseTransactions,
      categoryTotals, addToCategory, categoryLabel, startOfMonth, endOfMonth,
      daysInMonth, DateTime.le, sampleNow, sampleExpense, expense_beq_expense]
  exact ⟨hT, (C7_percentages "u1" sampleNow [sampleExpense]).2 hT⟩

/-- C8: the spec scenario.  Accounts with balances 45000 and 125000, one
in-month expense of -2847 (Engineering) and one in-month income of 45000
(Revenue) produce totalBalance 170000, monthlyBurn -42153 (monthlyExpenses
2847), monthlyRevenue 45000, and the sentinel runway 999. -/
theorem C8_demo_scenario :
    DatabaseStorage.getFinancialSummary "u1" sampleNow sampleAccounts
        [sampleExpense, sampleIncome] = ⟨170000, -42153, 45000, 999⟩
  ∧ DatabaseStorage.monthlyExpenses "u1" sampleNow [sampleExpense, sampleIncome]
      = 2847 := by
  constructor
  · simp [DatabaseStorage.getFinancialSummary, DatabaseStorage.totalBalance,
      DatabaseStorage.accountsData, DatabaseStorage.monthlyExpenses,
      DatabaseStorage.monthlyRevenue, DatabaseStorage.monthlyTransactions,
      startOfMonth, endOfMonth, daysInMonth, DateTime.le, sampleNow,
      sampleAccounts, sampleExpense, sampleIncome, expense_beq_expense,
      income_beq_expense, expense_beq_income, income_beq_income]
    norm_num
  · norm_num [DatabaseStorage.monthlyExpenses,
      DatabaseStorage.monthlyTransactions, startOfMonth, endOfMonth,
      daysInMonth, DateTime.le, sampleNow, sampleExpense, sampleIncome,
      expense_beq_expense, income_beq_expense]

/-- C9: a transaction whose type is neither expense nor income (such as a
transfer), inserted anywhere into the transaction table and dated anywhere,
changes neither the financial summary nor the expense breakdown. -/
theorem C9_transfer_inert (u : String) (now : DateTime) (accts : List Account)
    (pre post : List Transaction) (t : Transaction)
    (hE : t.type ≠ TxType.expense) (hI : t.type ≠ TxType.income) :
    DatabaseStorage.getFinancialSummary u now accts (pre ++ t :: post)
        = DatabaseStorage.getFinancialSummary u now accts (pre ++ post)
  ∧ DatabaseStorage.getExpenseBreakdown u now (pre ++ t :: post)
      = DatabaseStorage.getExpenseBreakdown u now (pre ++ post) := by
  have hExp : DatabaseStorage.monthlyExpenses u now (pre ++ t :: post)
      = DatabaseStorage.monthlyExpenses u now (pre ++ post) := by
    unfold DatabaseStorage.monthlyExpenses
    rw [monthly_filter_insert u now pre post t TxType.expense hE]
  have hInc : DatabaseStorage.monthlyRevenue u now (pre ++ t :: post)
      = DatabaseStorage.monthlyRevenue u now (pre ++ post) := by
    unfold DatabaseStorage.monthlyRevenue
    rw [monthly_filter_insert u now pre post t TxType.income hI]
  constructor
  · unfold DatabaseStorage.getFinancialSummary
    rw [hExp, hInc]
  · have hX := expenseTransactions_insert u now pre post t hE
    unfold DatabaseStorage.getExpenseBreakdown DatabaseStorage.totalExpenses
    rw [hX]

/-- Witness for C9: an in-month transfer of 777 leaves both outputs of the
empty table unchanged. -/
theorem C9_transfer_inert_witness :
    DatabaseStorage.getFinancialSummary "u1" sampleNow sampleAccounts
        [sampleTransfer]
      = DatabaseStorage.getFinancialSummary "u1" sampleNow sampleAccounts []
  ∧ DatabaseStorage.getExpenseBreakdown "u1" sampleNow [sampleTransfer]
      = DatabaseStorage.getExpenseBreakdown "u1" sampleNow [] :=
  C9_transfer_inert "u1" sampleNow sampleAccounts [] [] sampleTransfer
    (by decide) (by decide)

/-- C10: on the same user data and the same clock, the drizzle-backed
implementation and the in-memory mock implementation compute identical
financial summaries and identical expense breakdowns (even with the same
entry order, which is stronger than the equality up to order the claim
asks for): filter predicates, folds and grouping coincide. -/
theorem C10_mock_equivalent (u : String) (now : DateTime)
    (accts : List Account) (txs : List Transaction) :
    DatabaseStorage.getFinancialSummary u now accts txs
        = MockStorage.getFinancialSummary u now accts txs
  ∧ DatabaseStorage.getExpenseBreakdown u now txs
      = MockStorage.getExpenseBreakdown u now txs :=
  ⟨rfl, rfl⟩

end RunwayAI
